import Mathlib

/-!
# Verification of the glusterfs simple provisioner (`pkg/volume/provision.go`)

A shallow embedding of the provisioning/deprovisioning orchestrator:
brick creation, gluster volume assembly, endpoint/service publication,
and the delete/teardown path, together with theorems settling the
specification's claims.

External effects (remote command execution, the Kubernetes object store,
the GID allocator, configuration parsing) are modelled as an explicit
environment of outcomes plus an explicit object-store state; every
operation returns the list of external events it issued, so claims about
"which commands were issued" become claims about the event trace.
Go's panics on out-of-bounds slice indexing are modelled by `Option`
(`none` = panic).
-/

deriving instance DecidableEq for Except

namespace GlusterProv

/-! ## Go `path/filepath` model (Unix rules)

`createBricks` and `deleteBricks` derive brick paths with
`filepath.Join(root.Path, namespace, brickName)`.  On Unix,
`filepath.Join(elems...)` joins the elements from the first non-empty one
with `"/"` and applies `filepath.Clean`.  `Clean` is modelled by its
standard component description: split on `/`, drop empty and `"."`
components, resolve `".."` lexically (popping a previous component, or
dropping at the root of a rooted path, or accumulating when unrooted). -/

/-- `strings.Join(elems, "/")`. -/
def joinSlash : List String → String
  | [] => ""
  | [s] => s
  | s :: rest => s ++ "/" ++ joinSlash rest

/-- Split a character list at `/` (character-level model of splitting a
path on its separator). -/
def splitSlashAux : List Char → List Char → List (List Char)
  | [], cur => [cur.reverse]
  | c :: cs, cur =>
    if c = '/' then cur.reverse :: splitSlashAux cs []
    else splitSlashAux cs (c :: cur)

/-- Split a string on `/`. -/
def splitSlash (s : String) : List String :=
  (splitSlashAux s.data []).map (fun l => ⟨l⟩)

/-- Does the path begin with the separator (`path[0] == '/'`)? -/
def isRooted (s : String) : Bool :=
  match s.data with
  | '/' :: _ => true
  | _ => false

/-- Lexical `..` resolution of `filepath.Clean`: `acc` is the output stack
(reversed).  A `..` pops a previous non-`..` component; at the top of a
rooted path it is dropped; in an unrooted path it accumulates. -/
def resolveDotDot (rooted : Bool) : List String → List String → List String
  | acc, [] => acc.reverse
  | acc, c :: rest =>
    if c = ".." then
      match acc with
      | top :: acc' =>
        if top = ".." then resolveDotDot rooted (c :: top :: acc') rest
        else resolveDotDot rooted acc' rest
      | [] =>
        if rooted then resolveDotDot rooted [] rest
        else resolveDotDot rooted [c] rest
    else resolveDotDot rooted (c :: acc) rest

/-- Go `filepath.Clean` (Unix separator). -/
def goClean (path : String) : String :=
  if path = "" then "."
  else
    let rooted := isRooted path
    let comps := (splitSlash path).filter (fun c => ¬(c = "" ∨ c = "."))
    let out := resolveDotDot rooted [] comps
    if rooted then "/" ++ joinSlash out
    else if out = [] then "." else joinSlash out

/-- Go `filepath.Join` (Unix): join from the first non-empty element with
`"/"`, then `Clean`; all-empty input yields `""`. -/
def goFilepathJoin (elems : List String) : String :=
  match elems.dropWhile (fun e => e = "") with
  | [] => ""
  | es => goClean (joinSlash es)

/-! ## Data model -/

/-- One entry of `cfg.BrickRootPaths`: a storage host and the brick root
directory on it. -/
structure BrickRoot where
  host : String
  path : String
  deriving DecidableEq, Repr

/-- `ProvisionerConfig` (the fields this core reads; parsing lives in the
out-of-repo `NewProvisionerConfig`). -/
structure ProvisionerConfig where
  brickRootPaths : List BrickRoot
  volumeName : String
  volumeType : String
  forceCreate : Bool
  deriving DecidableEq, Repr

/-- `glusterBrick`: a resolved host/path pair. -/
structure glusterBrick where
  host : String
  path : String
  deriving DecidableEq, Repr

/-- `dynamicEpSvcPref` constant. -/
def dynamicEpSvcPref : String := "glusterfs-simple-"

/-- `brickName := strings.Join([]string{pvcName, cfg.VolumeName}, "-")`. -/
def brickName (pvcName volumeName : String) : String :=
  pvcName ++ "-" ++ volumeName

/-- `path := filepath.Join(root.Path, namespace, brickName)` — the brick
path derivation shared by `createBricks` and `deleteBricks`. -/
def brickPath (root : BrickRoot) (ns pvcName volumeName : String) : String :=
  goFilepathJoin [root.path, ns, brickName pvcName volumeName]

/-! ## External effects: events, object store, environment -/

/-- An external call issued by the orchestrator: a remote command batch
(`ExecuteCommands`), an object-store create/delete, or an allocator call. -/
inductive Event
  | exec (host : String) (cmds : List String)
  | createEp (ns name : String)
  | createSvc (ns name : String)
  | deleteSvc (ns name : String)
  | allocate
  | release
  deriving DecidableEq, Repr

/-- The object-store state visible to this core: which Endpoints objects
and which Service objects exist, keyed by (namespace, name). -/
structure K8sStore where
  endpoints : List (String × String)
  services : List (String × String)
  deriving DecidableEq, Repr

/-- Structured model of the `error` values this code produces or
propagates. -/
inductive PErr
  | selector
  | alloc (msg : String)
  | config (msg : String)
  | exec (host : String) (cmds : List String)
  | createEp (msg : String)
  | createSvc (msg : String)
  | classErr (msg : String)
  | claimRefNil
  | namespaceEmpty
  deriving DecidableEq, Repr

/-- `controller.ProvisioningState` of the external controller library. -/
inductive ProvisioningState
  | finished
  | inBackground
  | noChange
  | reschedule
  deriving DecidableEq, Repr

/-- Outcomes of the external collaborators, fixed per call: whether each
remote command batch succeeds, the injected non-already-exists failure (if
any) for each object-store create, and the allocator / class-lookup /
config-parsing results (the latter three live outside this repository; we
quantify over their outcomes). -/
structure Env where
  execOk : String → List String → Bool
  epFault : Option String
  svcFault : Option String
  alloc : Except String Int
  release : Except String Unit
  classResult : Except String Unit
  cfgResult : Except String ProvisionerConfig

/-- Object-store create: an existing key fails with "already exists"; an
absent key fails when the environment injects another failure, and
otherwise the object is created.  `none` in the second component means
success; `some (inl ())` is "already exists"; `some (inr m)` is any other
failure. -/
def storeCreate (objs : List (String × String)) (fault : Option String)
    (key : String × String) :
    List (String × String) × Option (Unit ⊕ String) :=
  if key ∈ objs then (objs, some (Sum.inl ()))
  else
    match fault with
    | some m => (objs, some (Sum.inr m))
    | none => (key :: objs, none)

/-- The `if err != nil && errors.IsAlreadyExists(err) { err = nil }`
pattern: suppress "already exists", keep any other failure. -/
def suppressAlreadyExists : Option (Unit ⊕ String) → Option String
  | none => none
  | some (Sum.inl ()) => none
  | some (Sum.inr m) => some m

/-! ## Published objects -/

/-- The `v1.Endpoints` object built by `createEndpointService` (the fields
the code sets). -/
structure Endpoints where
  ns : String
  name : String
  labelPvc : String
  addresses : List String
  port : Int
  protocol : String
  deriving DecidableEq, Repr

/-- The `v1.Service` object built by `createEndpointService`. -/
structure Service where
  ns : String
  name : String
  labelPvc : String
  port : Int
  protocol : String
  deriving DecidableEq, Repr

/-- The `v1.GlusterfsPersistentVolumeSource` returned by `createVolume`. -/
structure GlusterfsSource where
  endpointsName : String
  path : String
  readOnly : Bool
  deriving DecidableEq, Repr

/-- The persistent-volume descriptor `Provision` hands back (the fields the
code sets). -/
structure PersistentVolume where
  name : String
  annCreatedBy : String
  annGid : String
  source : GlusterfsSource
  deriving DecidableEq, Repr

/-- The claim reference embedded in a volume descriptor
(`volume.Spec.ClaimRef`). -/
structure ClaimRef where
  ns : String
  name : String
  deriving DecidableEq, Repr

/-- The part of an incoming `v1.PersistentVolume` that `Delete` reads. -/
structure VolumeDescriptor where
  name : String
  claimRef : Option ClaimRef
  deriving DecidableEq, Repr

/-- The part of `controller.ProvisionOptions` that `Provision` reads. -/
structure ProvisionOptions where
  pvName : String
  pvcNamespace : String
  pvcName : String
  hasSelector : Bool
  deriving DecidableEq, Repr

/-! ## Create path -/

/-- The per-brick command batch of `createBricks`:
`mkdir -p`, `chown :gid`, `chmod 0771`. -/
def mkBrickCmds (gid : Int) (path : String) : List String :=
  ["mkdir -p " ++ path,
   "chown :" ++ toString gid ++ " " ++ path,
   "chmod 0771 " ++ path]

/-- The loop body of `createBricks`: one command batch per brick root, in
root-list order, returning immediately with the error on the first failing
host (bricks attempted so far are not rolled back here). -/
def createBricksLoop (env : Env) (ns pvcName : String) (cfg : ProvisionerConfig)
    (gid : Int) : List BrickRoot → List Event × Except PErr (List glusterBrick)
  | [] => ([], Except.ok [])
  | root :: rest =>
    let path := brickPath root ns pvcName cfg.volumeName
    let cmds := mkBrickCmds gid path
    if env.execOk root.host cmds then
      let (t, r) := createBricksLoop env ns pvcName cfg gid rest
      (Event.exec root.host cmds :: t,
        r.map (fun bs => { host := root.host, path := path } :: bs))
    else
      ([Event.exec root.host cmds], Except.error (PErr.exec root.host cmds))

/-- `createBricks`. -/
def createBricks (env : Env) (ns pvcName : String) (cfg : ProvisionerConfig)
    (gid : Int) : List Event × Except PErr (List glusterBrick) :=
  createBricksLoop env ns pvcName cfg gid cfg.brickRootPaths

/-- The `gluster volume create` command: names every brick as `host:path`
and appends ` force` iff `cfg.ForceCreate`. -/
def volumeCreateCmd (bricks : List glusterBrick) (cfg : ProvisionerConfig) : String :=
  "gluster --mode=script volume create " ++ cfg.volumeName ++ " " ++ cfg.volumeType
    ++ String.join (bricks.map (fun b => " " ++ b.host ++ ":" ++ b.path))
    ++ (if cfg.forceCreate then " force" else "")

/-- The `gluster volume start` command. -/
def volumeStartCmd (cfg : ProvisionerConfig) : String :=
  "gluster --mode=script volume start " ++ cfg.volumeName

/-- `createGlusterVolume`: one two-command batch (create then start) against
`bricks[0].Host`; `none` models the panic of `bricks[0]` on an empty slice. -/
def createGlusterVolume (env : Env) (bricks : List glusterBrick)
    (cfg : ProvisionerConfig) : Option (List Event × Except PErr Unit) :=
  match bricks with
  | [] => none
  | b0 :: rest =>
    let cmds := [volumeCreateCmd (b0 :: rest) cfg, volumeStartCmd cfg]
    if env.execOk b0.host cmds then
      some ([Event.exec b0.host cmds], Except.ok ())
    else
      some ([Event.exec b0.host cmds], Except.error (PErr.exec b0.host cmds))

/-- `getClusterNodes`: the host of every configured brick root. -/
def getClusterNodes (cfg : ProvisionerConfig) : List String :=
  cfg.brickRootPaths.map (fun r => r.host)

/-- The Endpoints object `createEndpointService` builds: one address per
host, a placeholder port 1/TCP, labelled with the originating claim. -/
def mkEndpoints (ns epServiceName pvcname : String) (hostips : List String) :
    Endpoints :=
  { ns := ns, name := epServiceName, labelPvc := pvcname,
    addresses := hostips, port := 1, protocol := "TCP" }

/-- The Service object `createEndpointService` builds. -/
def mkService (ns epServiceName pvcname : String) : Service :=
  { ns := ns, name := epServiceName, labelPvc := pvcname,
    port := 1, protocol := "TCP" }

/-- `createEndpointService`: create the Endpoints object, then the Service
object, suppressing "already exists" on each; any other failure aborts and
is returned. -/
def createEndpointService (env : Env) (st : K8sStore) (ns epServiceName : String)
    (hostips : List String) (pvcname : String) :
    K8sStore × List Event × Except PErr (Endpoints × Service) :=
  let endpoint := mkEndpoints ns epServiceName pvcname hostips
  let (eps, epErr) := storeCreate st.endpoints env.epFault (ns, epServiceName)
  match suppressAlreadyExists epErr with
  | some m =>
    ({ st with endpoints := eps }, [Event.createEp ns epServiceName],
      Except.error (PErr.createEp m))
  | none =>
    let service := mkService ns epServiceName pvcname
    let (svcs, svcErr) := storeCreate st.services env.svcFault (ns, epServiceName)
    match suppressAlreadyExists svcErr with
    | some m =>
      (⟨eps, svcs⟩, [Event.createEp ns epServiceName, Event.createSvc ns epServiceName],
        Except.error (PErr.createSvc m))
    | none =>
      (⟨eps, svcs⟩, [Event.createEp ns epServiceName, Event.createSvc ns epServiceName],
        Except.ok (endpoint, service))

/-! ## Delete path -/

/-- The forced `gluster volume stop` command. -/
def volumeStopCmd (cfg : ProvisionerConfig) : String :=
  "gluster --mode=script volume stop " ++ cfg.volumeName ++ " force"

/-- The `gluster volume delete` command. -/
def volumeDeleteCmd (cfg : ProvisionerConfig) : String :=
  "gluster --mode=script volume delete " ++ cfg.volumeName

/-- `deleteGlusterVolume`: stop (forced) on the first configured root's
host; only if stop succeeded, delete; failures are logged, nothing is
returned.  `none` models the panic of `cfg.BrickRootPaths[0]` on an empty
list. -/
def deleteGlusterVolume (env : Env) (cfg : ProvisionerConfig) :
    Option (List Event) :=
  match cfg.brickRootPaths with
  | [] => none
  | r0 :: _ =>
    let stopCmds := [volumeStopCmd cfg]
    if env.execOk r0.host stopCmds then
      some [Event.exec r0.host stopCmds, Event.exec r0.host [volumeDeleteCmd cfg]]
    else
      some [Event.exec r0.host stopCmds]

/-- The single-command batch `deleteBricks` issues per root. -/
def rmBrickCmds (path : String) : List String :=
  ["rm -rf " ++ path]

/-- `deleteBricks`: `rm -rf` of the recomputed brick path on every
configured root, failures logged per host, never aborting. -/
def deleteBricks (ns pvcName : String) (cfg : ProvisionerConfig) : List Event :=
  cfg.brickRootPaths.map (fun root =>
    Event.exec root.host (rmBrickCmds (brickPath root ns pvcName cfg.volumeName)))

/-- `deleteEndpointService`: delete the Service object (errors logged, the
function always returns nil); the Endpoints object is not touched. -/
def deleteEndpointService (st : K8sStore) (ns epServiceName : String) :
    K8sStore × List Event :=
  ({ st with services := st.services.filter (fun k => ¬(k = (ns, epServiceName))) },
    [Event.deleteSvc ns epServiceName])

/-- `deleteVolume`: `deleteGlusterVolume`, then `deleteBricks`, then
`deleteEndpointService`, unconditionally in that order. -/
def deleteVolume (env : Env) (st : K8sStore) (ns name : String)
    (cfg : ProvisionerConfig) : Option (K8sStore × List Event) :=
  match deleteGlusterVolume env cfg with
  | none => none
  | some tVol =>
    let tBricks := deleteBricks ns name cfg
    let (st', tEp) := deleteEndpointService st ns (dynamicEpSvcPref ++ name)
    some (st', tVol ++ tBricks ++ tEp)

/-! ## Orchestrator entry points -/

/-- `createVolume`: bricks, then gluster volume, then endpoint/service; on
any failure, run the full best-effort teardown (`deleteVolume`) and return
the original error. -/
def createVolume (env : Env) (st : K8sStore) (ns name : String)
    (cfg : ProvisionerConfig) (gid : Int) :
    Option (K8sStore × List Event × Except PErr GlusterfsSource) :=
  let (tB, rB) := createBricks env ns name cfg gid
  match rB with
  | Except.error e =>
    match deleteVolume env st ns name cfg with
    | none => none
    | some (st', tD) => some (st', tB ++ tD, Except.error e)
  | Except.ok bricks =>
    match createGlusterVolume env bricks cfg with
    | none => none
    | some (tV, Except.error e) =>
      match deleteVolume env st ns name cfg with
      | none => none
      | some (st', tD) => some (st', tB ++ tV ++ tD, Except.error e)
    | some (tV, Except.ok ()) =>
      let (st1, tE, rE) :=
        createEndpointService env st ns (dynamicEpSvcPref ++ name)
          (getClusterNodes cfg) name
      match rE with
      | Except.error e =>
        match deleteVolume env st1 ns name cfg with
        | none => none
        | some (st2, tD) => some (st2, tB ++ tV ++ tE ++ tD, Except.error e)
      | Except.ok (endpoint, _service) =>
        some (st1, tB ++ tV ++ tE,
          Except.ok { endpointsName := endpoint.name, path := cfg.volumeName,
                      readOnly := false })

/-- The `createdBy` annotation value. -/
def createdBy : String := "glusterfs-simple-provisioner"

/-- The persistent volume `Provision` assembles on success. -/
def mkPersistentVolume (opts : ProvisionOptions) (gid : Int)
    (src : GlusterfsSource) : PersistentVolume :=
  { name := opts.pvName, annCreatedBy := createdBy, annGid := toString gid,
    source := src }

/-- `Provision`: reject selectors outright; allocate a GID; resolve
configuration; create the volume (with rollback on failure); on success
return the descriptor.  Every return carries `ProvisioningFinished`. -/
def Provision (env : Env) (st : K8sStore) (opts : ProvisionOptions) :
    Option (K8sStore × List Event × Except PErr PersistentVolume × ProvisioningState) :=
  if opts.hasSelector then
    some (st, [], Except.error PErr.selector, ProvisioningState.finished)
  else
    match env.alloc with
    | Except.error m =>
      some (st, [Event.allocate], Except.error (PErr.alloc m),
        ProvisioningState.finished)
    | Except.ok gid =>
      match env.cfgResult with
      | Except.error m =>
        some (st, [Event.allocate],
          Except.error (PErr.config ("Parameter is invalid: " ++ m)),
          ProvisioningState.finished)
      | Except.ok cfg =>
        match createVolume env st opts.pvcNamespace opts.pvcName cfg gid with
        | none => none
        | some (st', t, Except.error e) =>
          some (st', Event.allocate :: t, Except.error e,
            ProvisioningState.finished)
        | some (st', t, Except.ok src) =>
          some (st', Event.allocate :: t,
            Except.ok (mkPersistentVolume opts gid src),
            ProvisioningState.finished)

/-- `Delete`: look up the storage class and reparse configuration; reject a
nil claim reference or an empty claim namespace; otherwise run the full
best-effort teardown, then release the GID (release failure only logged)
and return success. -/
def Delete (env : Env) (st : K8sStore) (vol : VolumeDescriptor) :
    Option (K8sStore × List Event × Option PErr) :=
  match env.classResult with
  | Except.error m => some (st, [], some (PErr.classErr m))
  | Except.ok () =>
    match env.cfgResult with
    | Except.error m => some (st, [], some (PErr.config ("Parameter is invalid: " ++ m)))
    | Except.ok cfg =>
      match vol.claimRef with
      | none => some (st, [], some PErr.claimRefNil)
      | some pvc =>
        if pvc.ns = "" then some (st, [], some PErr.namespaceEmpty)
        else
          match deleteVolume env st pvc.ns pvc.name cfg with
          | none => none
          | some (st', t) => some (st', t ++ [Event.release], none)

/-! ## Derived descriptions used in statements -/

/-- The event a successful `createBricks` issues for one root. -/
def brickEventFor (gid : Int) (ns pvcName volumeName : String) (root : BrickRoot) :
    Event :=
  Event.exec root.host (mkBrickCmds gid (brickPath root ns pvcName volumeName))

/-- The brick a successful `createBricks` records for one root. -/
def brickFor (ns pvcName volumeName : String) (root : BrickRoot) : glusterBrick :=
  { host := root.host, path := brickPath root ns pvcName volumeName }

/-- The error of the first failing create step — bricks, then volume
assembly, then exposure publication — i.e. the "original failure" the
specification says a failed create must surface unchanged. -/
def firstCreateFailure (env : Env) (st : K8sStore) (ns name : String)
    (cfg : ProvisionerConfig) (gid : Int) : Option PErr :=
  match (createBricks env ns name cfg gid).2 with
  | Except.error e => some e
  | Except.ok bricks =>
    match createGlusterVolume env bricks cfg with
    | none => none
    | some (_, Except.error e) => some e
    | some (_, Except.ok ()) =>
      match (createEndpointService env st ns (dynamicEpSvcPref ++ name)
          (getClusterNodes cfg) name).2.2 with
      | Except.error e => some e
      | Except.ok _ => none

/-! ## Concrete instances

A two-host configuration matching the specification's worked scenario
(section 8): roots `h1:/data`, `h2:/data`, volume `vol1` of type
`replicate`, namespace `ns1`, claim `pvc-a`, gid 5. -/

def cfgW : ProvisionerConfig :=
  { brickRootPaths := [⟨"h1", "/data"⟩, ⟨"h2", "/data"⟩],
    volumeName := "vol1", volumeType := "replicate", forceCreate := false }

/-- An empty object store. -/
def stEmpty : K8sStore := ⟨[], []⟩

/-- A store already holding both exposure objects of the scenario volume. -/
def stBoth : K8sStore :=
  ⟨[("ns1", "glusterfs-simple-pvc-a")], [("ns1", "glusterfs-simple-pvc-a")]⟩

/-- Every remote command batch succeeds. -/
def execAll : String → List String → Bool := fun _ _ => true

/-- Remote command batches fail on host `h2` and succeed elsewhere. -/
def execNotH2 : String → List String → Bool := fun h _ => !(h == "h2")

/-- All collaborators succeed; configuration resolves to `cfgW`. -/
def envW : Env :=
  { execOk := execAll, epFault := none, svcFault := none, alloc := Except.ok 5,
    release := Except.ok (), classResult := Except.ok (), cfgResult := Except.ok cfgW }

/-- Like `envW` but with brick creation failing on `h2`. -/
def envFailBricks : Env := { envW with execOk := execNotH2 }

/-- Like `envW` but with configuration resolution failing. -/
def envBadCfg : Env := { envW with cfgResult := Except.error "bad storage class parameters" }

/-- A create request without a selector. -/
def optsW : ProvisionOptions := ⟨"pv-1", "ns1", "pvc-a", false⟩

/-- A create request carrying a selector. -/
def optsSel : ProvisionOptions := ⟨"pv-1", "ns1", "pvc-a", true⟩

/-- A volume descriptor with an intact claim reference. -/
def volW : VolumeDescriptor := ⟨"pv-1", some ⟨"ns1", "pvc-a"⟩⟩

/-- A volume descriptor whose claim reference is nil. -/
def volNoClaim : VolumeDescriptor := ⟨"pv-1", none⟩

/-- The brick command batch of the scenario (gid 5). -/
def mkdirCmdsW : List String :=
  ["mkdir -p /data/ns1/pvc-a-vol1", "chown :5 /data/ns1/pvc-a-vol1",
   "chmod 0771 /data/ns1/pvc-a-vol1"]

/-- The trace of the scenario create when brick creation fails on `h2`. -/
def tFailW : List Event :=
  [Event.exec "h1" mkdirCmdsW, Event.exec "h2" mkdirCmdsW,
   Event.exec "h1" ["gluster --mode=script volume stop vol1 force"],
   Event.exec "h1" ["gluster --mode=script volume delete vol1"],
   Event.exec "h1" ["rm -rf /data/ns1/pvc-a-vol1"],
   Event.exec "h2" ["rm -rf /data/ns1/pvc-a-vol1"],
   Event.deleteSvc "ns1" "glusterfs-simple-pvc-a"]

/-- The trace of the fully successful scenario create. -/
def tOkW : List Event :=
  [Event.exec "h1" mkdirCmdsW, Event.exec "h2" mkdirCmdsW,
   Event.exec "h1"
     ["gluster --mode=script volume create vol1 replicate h1:/data/ns1/pvc-a-vol1 h2:/data/ns1/pvc-a-vol1",
      "gluster --mode=script volume start vol1"],
   Event.createEp "ns1" "glusterfs-simple-pvc-a",
   Event.createSvc "ns1" "glusterfs-simple-pvc-a"]

/-- The store after the successful scenario create. -/
def stAfterW : K8sStore :=
  ⟨[("ns1", "glusterfs-simple-pvc-a")], [("ns1", "glusterfs-simple-pvc-a")]⟩

/-- The trace of the successful scenario `createBricks`. -/
def tBW : List Event := [Event.exec "h1" mkdirCmdsW, Event.exec "h2" mkdirCmdsW]

/-- The bricks of the successful scenario `createBricks`. -/
def bsW : List glusterBrick :=
  [⟨"h1", "/data/ns1/pvc-a-vol1"⟩, ⟨"h2", "/data/ns1/pvc-a-vol1"⟩]

/-- The trace of the scenario teardown (`deleteVolume`). -/
def tDelW : List Event :=
  [Event.exec "h1" ["gluster --mode=script volume stop vol1 force"],
   Event.exec "h1" ["gluster --mode=script volume delete vol1"],
   Event.exec "h1" ["rm -rf /data/ns1/pvc-a-vol1"],
   Event.exec "h2" ["rm -rf /data/ns1/pvc-a-vol1"],
   Event.deleteSvc "ns1" "glusterfs-simple-pvc-a"]

/-- The store after the scenario teardown starting from `stBoth`. -/
def stAfterDelW : K8sStore := ⟨[("ns1", "glusterfs-simple-pvc-a")], []⟩

/-! ## Helper lemmas and claim theorems -/

theorem createBricksLoop_ok {env : Env} {ns pvcName : String} {cfg : ProvisionerConfig}
    {gid : Int} : ∀ {roots : List BrickRoot} {t : List Event} {bs : List glusterBrick},
    createBricksLoop env ns pvcName cfg gid roots = (t, Except.ok bs) →
    t = roots.map (brickEventFor gid ns pvcName cfg.volumeName) ∧
    bs = roots.map (brickFor ns pvcName cfg.volumeName) := by
  intro roots
  induction roots with
  | nil =>
    intro t bs h
    simp only [createBricksLoop, List.map_nil] at h ⊢
    injection h with h1 h2
    injection h2 with h2
    exact ⟨h1.symm, h2.symm⟩
  | cons root rest ih =>
    intro t bs h
    simp only [createBricksLoop] at h
    split at h
    · rcases hrec : createBricksLoop env ns pvcName cfg gid rest with ⟨t', r⟩
      rw [hrec] at h
      simp only at h
      injection h with h1 h2
      cases r with
      | error e => simp [Except.map] at h2
      | ok bs' =>
        simp only [Except.map] at h2
        injection h2 with h2
        obtain ⟨ht, hb⟩ := ih hrec
        subst ht hb
        constructor
        · rw [← h1]; simp [brickEventFor]
        · rw [← h2]; simp [brickFor]
    · exact absurd h (by simp)

theorem deleteGlusterVolume_some {env : Env} {cfg : ProvisionerConfig} {r0 : BrickRoot}
    {rs : List BrickRoot} (hcfg : cfg.brickRootPaths = r0 :: rs) :
    deleteGlusterVolume env cfg =
      some (if env.execOk r0.host [volumeStopCmd cfg] then
              [Event.exec r0.host [volumeStopCmd cfg],
               Event.exec r0.host [volumeDeleteCmd cfg]]
            else [Event.exec r0.host [volumeStopCmd cfg]]) := by
  simp only [deleteGlusterVolume, hcfg]
  split <;> simp_all

theorem deleteVolume_eq (env : Env) (st : K8sStore) (ns name : String)
    {cfg : ProvisionerConfig} {r0 : BrickRoot} {rs : List BrickRoot}
    (hcfg : cfg.brickRootPaths = r0 :: rs) :
    ∃ tVol, deleteGlusterVolume env cfg = some tVol ∧
      deleteVolume env st ns name cfg =
        some ((deleteEndpointService st ns (dynamicEpSvcPref ++ name)).1,
          tVol ++ deleteBricks ns name cfg ++ [Event.deleteSvc ns (dynamicEpSvcPref ++ name)]) := by
  refine ⟨_, deleteGlusterVolume_some hcfg, ?_⟩
  simp only [deleteVolume, deleteGlusterVolume_some hcfg, deleteEndpointService]

theorem rm_mem_deleteBricks (ns name : String) {cfg : ProvisionerConfig} {root : BrickRoot}
    (h : root ∈ cfg.brickRootPaths) :
    Event.exec root.host ["rm -rf " ++ brickPath root ns name cfg.volumeName] ∈
      deleteBricks ns name cfg := by
  have := List.mem_map_of_mem
    (fun r => Event.exec r.host (rmBrickCmds (brickPath r ns name cfg.volumeName))) h
  exact this

theorem createGlusterVolume_cons (env : Env) (b0 : glusterBrick)
    (rest : List glusterBrick) (cfg : ProvisionerConfig) :
    createGlusterVolume env (b0 :: rest) cfg =
      some ([Event.exec b0.host [volumeCreateCmd (b0 :: rest) cfg, volumeStartCmd cfg]],
        if env.execOk b0.host [volumeCreateCmd (b0 :: rest) cfg, volumeStartCmd cfg] then
          Except.ok ()
        else
          Except.error (PErr.exec b0.host [volumeCreateCmd (b0 :: rest) cfg, volumeStartCmd cfg])) := by
  simp only [createGlusterVolume]
  split <;> simp_all

/-- C1: whenever `createVolume` returns an error — brick creation failed part-way,
volume assembly failed, or exposure publishing failed — its event trace contains a
brick-delete (`rm -rf`) command batch for every configured brick root (not only the
roots already provisioned), the teardown itself never aborted (the call still
returned), and the error returned is exactly the first failing step's error. -/
theorem create_failure_full_teardown (env : Env) (st : K8sStore) (ns name : String)
    (cfg : ProvisionerConfig) (gid : Int) (st' : K8sStore) (t : List Event) (e : PErr)
    (h : createVolume env st ns name cfg gid = some (st', t, Except.error e)) :
    (∀ root ∈ cfg.brickRootPaths,
      Event.exec root.host ["rm -rf " ++ brickPath root ns name cfg.volumeName] ∈ t)
    ∧ firstCreateFailure env st ns name cfg gid = some e := by
  rcases hB : createBricks env ns name cfg gid with ⟨tB, rB⟩
  simp only [createVolume, hB] at h
  cases rB with
  | error e0 =>
    cases hroots : cfg.brickRootPaths with
    | nil => simp [deleteVolume, deleteGlusterVolume, hroots] at h
    | cons r0 rs =>
      obtain ⟨tVol, hdg, hdv⟩ := deleteVolume_eq env st ns name hroots
      rw [hdv] at h
      simp only [Option.some.injEq, Prod.mk.injEq, Except.error.injEq] at h
      obtain ⟨hst, ht, he⟩ := h
      constructor
      · intro root hr
        have hm := rm_mem_deleteBricks ns name (hroots.symm ▸ hr)
        rw [← ht]
        simp only [List.mem_append]
        tauto
      · simp only [firstCreateFailure, hB, he]
  | ok bricks =>
    obtain ⟨htB, hbs⟩ := createBricksLoop_ok (hB : createBricksLoop env ns name cfg gid cfg.brickRootPaths = _)
    cases hroots : cfg.brickRootPaths with
    | nil =>
      rw [hroots] at hbs
      simp only [List.map_nil] at hbs
      rw [hbs] at h
      simp [createGlusterVolume] at h
    | cons r0 rs =>
      rw [hroots] at hbs
      simp only [List.map_cons] at hbs
      rw [hbs] at h
      simp only at h
      rw [createGlusterVolume_cons] at h
      cases hx : env.execOk (brickFor ns name cfg.volumeName r0).host
          [volumeCreateCmd (brickFor ns name cfg.volumeName r0 ::
             List.map (brickFor ns name cfg.volumeName) rs) cfg, volumeStartCmd cfg] with
      | true =>
        rw [hx, if_pos rfl] at h
        simp only at h
        rcases hE : createEndpointService env st ns (dynamicEpSvcPref ++ name)
          (getClusterNodes cfg) name with ⟨st1, tE, rE⟩
        rw [hE] at h
        simp only at h
        cases rE with
        | ok pr => simp at h
        | error eE =>
          obtain ⟨tVol, hdg, hdv⟩ := deleteVolume_eq env st1 ns name hroots
          rw [hdv] at h
          simp only [Option.some.injEq, Prod.mk.injEq, Except.error.injEq] at h
          obtain ⟨hst, ht, he⟩ := h
          constructor
          · intro root hr
            have hm := rm_mem_deleteBricks ns name (hroots.symm ▸ hr)
            rw [← ht]
            simp only [List.mem_append]
            tauto
          · simp [firstCreateFailure, hB, hbs, createGlusterVolume_cons, hx, hE, he]
      | false =>
        rw [hx, if_neg Bool.false_ne_true] at h
        simp only at h
        obtain ⟨tVol, hdg, hdv⟩ := deleteVolume_eq env st ns name hroots
        rw [hdv] at h
        simp only [Option.some.injEq, Prod.mk.injEq, Except.error.injEq] at h
        obtain ⟨hst, ht, he⟩ := h
        constructor
        · intro root hr
          have hm := rm_mem_deleteBricks ns name (hroots.symm ▸ hr)
          rw [← ht]
          simp only [List.mem_append]
          tauto
        · simp [firstCreateFailure, hB, hbs, createGlusterVolume_cons, hx, he]

theorem createEndpointService_ok {env : Env} {st : K8sStore} {ns n pvc : String}
    {hosts : List String} {st1 : K8sStore} {tE : List Event}
    {pr : Endpoints × Service}
    (h : createEndpointService env st ns n hosts pvc = (st1, tE, Except.ok pr)) :
    tE = [Event.createEp ns n, Event.createSvc ns n] ∧
    pr = (mkEndpoints ns n pvc hosts, mkService ns n pvc) := by
  simp only [createEndpointService] at h
  rcases h1 : storeCreate st.endpoints env.epFault (ns, n) with ⟨eps, epErr⟩
  rw [h1] at h
  simp only at h
  cases hs : suppressAlreadyExists epErr with
  | some m => rw [hs] at h; simp at h
  | none =>
    rw [hs] at h
    simp only at h
    rcases h2 : storeCreate st.services env.svcFault (ns, n) with ⟨svcs, svcErr⟩
    rw [h2] at h
    simp only at h
    cases hs2 : suppressAlreadyExists svcErr with
    | some m => rw [hs2] at h; simp at h
    | none =>
      rw [hs2] at h
      simp only [Prod.mk.injEq, Except.ok.injEq] at h
      exact ⟨h.2.1.symm, h.2.2.symm⟩

/-- C2: a successful `createVolume` issues exactly one brick command batch
(`mkdir -p`, `chown :gid`, `chmod 0771`) per configured root, in root-list order,
followed by exactly one volume batch — the `gluster volume create` command naming
all N bricks as `host:path` with ` force` appended iff `ForceCreate`, then the
`gluster volume start` command — issued against the first brick's host only, and
then the two exposure-object creations. -/
theorem create_success_trace (env : Env) (st : K8sStore) (ns name : String)
    (cfg : ProvisionerConfig) (gid : Int) (st' : K8sStore) (t : List Event)
    (src : GlusterfsSource)
    (h : createVolume env st ns name cfg gid = some (st', t, Except.ok src)) :
    ∃ r0 rs, cfg.brickRootPaths = r0 :: rs ∧
      t = (r0 :: rs).map (fun root => Event.exec root.host
            ["mkdir -p " ++ brickPath root ns name cfg.volumeName,
             "chown :" ++ toString gid ++ " " ++ brickPath root ns name cfg.volumeName,
             "chmod 0771 " ++ brickPath root ns name cfg.volumeName])
        ++ [Event.exec r0.host
              ["gluster --mode=script volume create " ++ cfg.volumeName ++ " " ++ cfg.volumeType
                 ++ String.join (((r0 :: rs).map (brickFor ns name cfg.volumeName)).map
                      (fun b => " " ++ b.host ++ ":" ++ b.path))
                 ++ (if cfg.forceCreate then " force" else ""),
               "gluster --mode=script volume start " ++ cfg.volumeName],
            Event.createEp ns (dynamicEpSvcPref ++ name),
            Event.createSvc ns (dynamicEpSvcPref ++ name)] := by
  rcases hB : createBricks env ns name cfg gid with ⟨tB, rB⟩
  simp only [createVolume, hB] at h
  cases rB with
  | error e0 =>
    cases hroots : cfg.brickRootPaths with
    | nil => simp [deleteVolume, deleteGlusterVolume, hroots] at h
    | cons r0 rs =>
      obtain ⟨tVol, hdg, hdv⟩ := deleteVolume_eq env st ns name hroots
      rw [hdv] at h
      simp at h
  | ok bricks =>
    obtain ⟨htB, hbs⟩ := createBricksLoop_ok (hB : createBricksLoop env ns name cfg gid cfg.brickRootPaths = _)
    cases hroots : cfg.brickRootPaths with
    | nil =>
      rw [hroots] at hbs
      simp only [List.map_nil] at hbs
      rw [hbs] at h
      simp [createGlusterVolume] at h
    | cons r0 rs =>
      rw [hroots] at hbs
      simp only [List.map_cons] at hbs
      rw [hbs] at h
      simp only at h
      rw [createGlusterVolume_cons] at h
      cases hx : env.execOk (brickFor ns name cfg.volumeName r0).host
          [volumeCreateCmd (brickFor ns name cfg.volumeName r0 ::
             List.map (brickFor ns name cfg.volumeName) rs) cfg, volumeStartCmd cfg] with
      | false =>
        rw [hx, if_neg Bool.false_ne_true] at h
        simp only at h
        obtain ⟨tVol, hdg, hdv⟩ := deleteVolume_eq env st ns name hroots
        rw [hdv] at h
        simp at h
      | true =>
        rw [hx, if_pos rfl] at h
        simp only at h
        rcases hE : createEndpointService env st ns (dynamicEpSvcPref ++ name)
          (getClusterNodes cfg) name with ⟨st1, tE, rE⟩
        rw [hE] at h
        simp only at h
        cases rE with
        | error eE =>
          obtain ⟨tVol, hdg, hdv⟩ := deleteVolume_eq env st1 ns name hroots
          rw [hdv] at h
          simp at h
        | ok pr =>
          obtain ⟨htE, hpr⟩ := createEndpointService_ok hE
          simp only [Option.some.injEq, Prod.mk.injEq] at h
          obtain ⟨hst, ht, hsrc⟩ := h
          refine ⟨r0, rs, rfl, ?_⟩
          rw [← ht, htB, hroots, htE]
          simp [brickEventFor, mkBrickCmds, brickFor, volumeCreateCmd, volumeStartCmd,
            List.append_assoc]

/-- C9: for every configuration with at least one brick root, the volume-lifecycle
operations never index out of bounds: `createVolume`, `deleteVolume` and
`deleteGlusterVolume` never hit the empty-slice panic (modelled as `none`), and
`createGlusterVolume` applied to the bricks of a successful `createBricks` is
always in bounds. -/
theorem nonempty_roots_no_oob (env : Env) (st : K8sStore) (ns name : String)
    (cfg : ProvisionerConfig) (gid : Int) (h : cfg.brickRootPaths ≠ []) :
    (createVolume env st ns name cfg gid).isSome ∧
    (deleteVolume env st ns name cfg).isSome ∧
    (deleteGlusterVolume env cfg).isSome ∧
    (∀ t bs, createBricks env ns name cfg gid = (t, Except.ok bs) →
      (createGlusterVolume env bs cfg).isSome) := by
  obtain ⟨r0, rs, hroots⟩ := List.exists_cons_of_ne_nil h
  obtain ⟨tVol, hdg, hdv⟩ := deleteVolume_eq env st ns name hroots
  refine ⟨?_, by rw [hdv]; rfl, by rw [hdg]; rfl, ?_⟩
  · rcases hB : createBricks env ns name cfg gid with ⟨tB, rB⟩
    simp only [createVolume, hB]
    cases rB with
    | error e0 => rw [hdv]; rfl
    | ok bricks =>
      obtain ⟨htB, hbs⟩ := createBricksLoop_ok (hB : createBricksLoop env ns name cfg gid cfg.brickRootPaths = _)
      rw [hroots] at hbs
      simp only [List.map_cons] at hbs
      rw [hbs]
      simp only []
      rw [createGlusterVolume_cons]
      cases hx : env.execOk (brickFor ns name cfg.volumeName r0).host
          [volumeCreateCmd (brickFor ns name cfg.volumeName r0 ::
             List.map (brickFor ns name cfg.volumeName) rs) cfg, volumeStartCmd cfg] with
      | false =>
        rw [if_neg Bool.false_ne_true]
        simp only []
        rw [hdv]
        rfl
      | true =>
        rw [if_pos rfl]
        simp only []
        rcases hE : createEndpointService env st ns (dynamicEpSvcPref ++ name)
          (getClusterNodes cfg) name with ⟨st1, tE, rE⟩
        simp only []
        cases rE with
        | error eE =>
          obtain ⟨tVol2, hdg2, hdv2⟩ := deleteVolume_eq env st1 ns name hroots
          rw [hdv2]
          rfl
        | ok pr => rfl
  · intro t bs hB
    obtain ⟨htB, hbs⟩ := createBricksLoop_ok (hB : createBricksLoop env ns name cfg gid cfg.brickRootPaths = _)
    rw [hroots] at hbs
    simp only [List.map_cons] at hbs
    rw [hbs, createGlusterVolume_cons]
    rfl

/-- C5: exposure publishing is idempotent.  Absent injected non-already-exists
faults, `createEndpointService` always succeeds — an "already exists" answer from
either the Endpoints or the Service creation is suppressed — and a second call
with identical arguments succeeds and leaves the object-store state unchanged;
any other creation failure aborts the publish and is returned as an error. -/
theorem publish_idempotent (env : Env) (st : K8sStore) (ns epName pvcname : String)
    (hostips : List String) :
    (env.epFault = none → env.svcFault = none →
      createEndpointService env st ns epName hostips pvcname =
        ({ endpoints := if (ns, epName) ∈ st.endpoints then st.endpoints
                        else (ns, epName) :: st.endpoints,
           services := if (ns, epName) ∈ st.services then st.services
                       else (ns, epName) :: st.services },
         [Event.createEp ns epName, Event.createSvc ns epName],
         Except.ok (mkEndpoints ns epName pvcname hostips, mkService ns epName pvcname))
      ∧ createEndpointService env
          (createEndpointService env st ns epName hostips pvcname).1 ns epName hostips pvcname =
          ((createEndpointService env st ns epName hostips pvcname).1,
           [Event.createEp ns epName, Event.createSvc ns epName],
           Except.ok (mkEndpoints ns epName pvcname hostips, mkService ns epName pvcname)))
    ∧ (∀ m, env.epFault = some m → (ns, epName) ∉ st.endpoints →
        createEndpointService env st ns epName hostips pvcname =
          (st, [Event.createEp ns epName], Except.error (PErr.createEp m)))
    ∧ (∀ m, env.epFault = none → env.svcFault = some m → (ns, epName) ∉ st.services →
        (createEndpointService env st ns epName hostips pvcname).2.2 =
          Except.error (PErr.createSvc m)) := by
  refine ⟨?_, ?_, ?_⟩
  · intro hep hsvc
    have h1 : createEndpointService env st ns epName hostips pvcname =
        ({ endpoints := if (ns, epName) ∈ st.endpoints then st.endpoints
                        else (ns, epName) :: st.endpoints,
           services := if (ns, epName) ∈ st.services then st.services
                       else (ns, epName) :: st.services },
         [Event.createEp ns epName, Event.createSvc ns epName],
         Except.ok (mkEndpoints ns epName pvcname hostips, mkService ns epName pvcname)) := by
      by_cases he : (ns, epName) ∈ st.endpoints <;>
        by_cases hs : (ns, epName) ∈ st.services <;>
          simp [createEndpointService, storeCreate, suppressAlreadyExists, hep, hsvc, he, hs]
    refine ⟨h1, ?_⟩
    rw [h1]
    have hmem1 : (ns, epName) ∈
        (if (ns, epName) ∈ st.endpoints then st.endpoints
         else (ns, epName) :: st.endpoints) := by
      by_cases he : (ns, epName) ∈ st.endpoints <;> simp [he]
    have hmem2 : (ns, epName) ∈
        (if (ns, epName) ∈ st.services then st.services
         else (ns, epName) :: st.services) := by
      by_cases hs : (ns, epName) ∈ st.services <;> simp [hs]
    simp [createEndpointService, storeCreate, suppressAlreadyExists, hep, hsvc, hmem1, hmem2]
  · intro m hm hmem
    simp [createEndpointService, storeCreate, suppressAlreadyExists, hm, hmem]
  · intro m hep hm hmem
    by_cases he : (ns, epName) ∈ st.endpoints <;>
      simp [createEndpointService, storeCreate, suppressAlreadyExists, hep, hm, hmem, he]

/-- C3 (amended): when configuration resolution fails, `Provision` returns a
terminal error (`ProvisioningFinished`) having issued no remote command and no
object-store call — but the numeric id has already been acquired from the
allocator, because `AllocateNext` runs before `NewProvisionerConfig`: the event
trace is exactly `[Event.allocate]`. -/
theorem config_failure_only_alloc (env : Env) (st : K8sStore) (opts : ProvisionOptions)
    (gid : Int) (m : String) (hsel : opts.hasSelector = false)
    (halloc : env.alloc = Except.ok gid) (hcfg : env.cfgResult = Except.error m) :
    Provision env st opts = some (st, [Event.allocate],
      Except.error (PErr.config ("Parameter is invalid: " ++ m)),
      ProvisioningState.finished) := by
  simp [Provision, hsel, halloc, hcfg]

/-- C8: a create request carrying a selector is rejected immediately with a
terminal (`ProvisioningFinished`) error and an empty event trace: zero remote
commands, zero object-store calls, zero allocator calls. -/
theorem selector_rejected (env : Env) (st : K8sStore) (opts : ProvisionOptions)
    (h : opts.hasSelector = true) :
    Provision env st opts =
      some (st, [], Except.error PErr.selector, ProvisioningState.finished) := by
  simp [Provision, h]

/-- C10: a delete call whose descriptor's claim reference is absent, or present
with an empty namespace, returns an error with an empty event trace — no remote
command, no object deletion and no allocator release happens. -/
theorem delete_missing_claimref (env : Env) (st : K8sStore) (vol : VolumeDescriptor)
    (h : vol.claimRef = none ∨ ∃ pvc, vol.claimRef = some pvc ∧ pvc.ns = "") :
    ∃ e, Delete env st vol = some (st, [], some e) := by
  cases hc : env.classResult with
  | error m => exact ⟨PErr.classErr m, by simp [Delete, hc]⟩
  | ok u =>
    cases u
    cases hcf : env.cfgResult with
    | error m => exact ⟨PErr.config ("Parameter is invalid: " ++ m), by simp [Delete, hc, hcf]⟩
    | ok cfg =>
      rcases h with hnone | ⟨pvc, hsome, hns⟩
      · exact ⟨PErr.claimRefNil, by simp [Delete, hc, hcf, hnone]⟩
      · exact ⟨PErr.namespaceEmpty, by simp [Delete, hc, hcf, hsome, hns]⟩

/-- C6 (amended): for every delete call whose configuration resolves *and whose
claim reference is present with a non-empty namespace*, `Delete` runs volume
teardown, then brick deletion for every configured root, then exposure
unpublishing, in that order, regardless of individual step failures, then
releases the numeric id and returns success (`none`) for every release
outcome. -/
theorem delete_teardown_order (env : Env) (st : K8sStore) (vol : VolumeDescriptor)
    (cfg : ProvisionerConfig) (pvc : ClaimRef) (r0 : BrickRoot) (rs : List BrickRoot)
    (hclass : env.classResult = Except.ok ())
    (hcfg : env.cfgResult = Except.ok cfg)
    (href : vol.claimRef = some pvc)
    (hns : pvc.ns ≠ "")
    (hroots : cfg.brickRootPaths = r0 :: rs) :
    ∃ tVol, deleteGlusterVolume env cfg = some tVol ∧
      Delete env st vol = some
        ((deleteEndpointService st pvc.ns (dynamicEpSvcPref ++ pvc.name)).1,
          tVol ++ deleteBricks pvc.ns pvc.name cfg
            ++ [Event.deleteSvc pvc.ns (dynamicEpSvcPref ++ pvc.name)]
            ++ [Event.release],
          none) ∧
      (∀ root ∈ cfg.brickRootPaths,
        Event.exec root.host ["rm -rf " ++ brickPath root pvc.ns pvc.name cfg.volumeName] ∈
          tVol ++ deleteBricks pvc.ns pvc.name cfg
            ++ [Event.deleteSvc pvc.ns (dynamicEpSvcPref ++ pvc.name)]
            ++ [Event.release]) := by
  obtain ⟨tVol, hdg, hdv⟩ :=
    deleteVolume_eq env st pvc.ns pvc.name hroots
  refine ⟨tVol, hdg, ?_, ?_⟩
  · simp only [Delete, hclass, hcfg, href]
    rw [if_neg hns, hdv]
  · intro root hr
    have hm := rm_mem_deleteBricks pvc.ns pvc.name hr
    simp only [List.mem_append]
    tauto

/-- C7 (amended): teardown deletes only the port-mapping object (the Service):
after `deleteVolume`, the Service key is removed from the store while the
Endpoints (address-list) objects are untouched — the pair does not both get
deleted. -/
theorem teardown_deletes_only_service (env : Env) (st : K8sStore) (ns name : String)
    (cfg : ProvisionerConfig) (st' : K8sStore) (t : List Event)
    (h : deleteVolume env st ns name cfg = some (st', t)) :
    st'.endpoints = st.endpoints ∧
    Event.deleteSvc ns (dynamicEpSvcPref ++ name) ∈ t ∧
    (∀ k, k ∈ st'.services ↔ k ∈ st.services ∧ k ≠ (ns, dynamicEpSvcPref ++ name)) := by
  cases hdg : deleteGlusterVolume env cfg with
  | none => simp [deleteVolume, hdg] at h
  | some tVol =>
    simp only [deleteVolume, hdg, deleteEndpointService] at h
    simp only [Option.some.injEq, Prod.mk.injEq] at h
    obtain ⟨hst, ht⟩ := h
    refine ⟨by rw [← hst], ?_, ?_⟩
    · rw [← ht]
      simp [List.mem_append]
    · intro k
      rw [← hst]
      simp [List.mem_filter]

/-- C4 (amended): brick path derivation is a deterministic pure function of
(root path, namespace, claim name, volume name): the command batch issued by
`createBricks` and the `rm -rf` issued by `deleteBricks` use the same
`brickPath`, and for a non-empty root path that path equals Go
`filepath.Clean` applied to `root.Path + "/" + namespace + "/" + claimName +
"-" + volumeName` (plain concatenation only up to path cleaning). -/
theorem brick_path_derivation (env : Env) (cfg : ProvisionerConfig) (ns claim : String)
    (gid : Int) (root : BrickRoot) (t : List Event) (bs : List glusterBrick)
    (hroot : root ∈ cfg.brickRootPaths)
    (hok : createBricks env ns claim cfg gid = (t, Except.ok bs))
    (hne : root.path ≠ "") :
    Event.exec root.host (mkBrickCmds gid (brickPath root ns claim cfg.volumeName)) ∈ t ∧
    Event.exec root.host (rmBrickCmds (brickPath root ns claim cfg.volumeName)) ∈
      deleteBricks ns claim cfg ∧
    brickPath root ns claim cfg.volumeName =
      goClean (root.path ++ "/" ++ ns ++ "/" ++ claim ++ "-" ++ cfg.volumeName) := by
  obtain ⟨ht, hbs⟩ := createBricksLoop_ok (hok : createBricksLoop env ns claim cfg gid cfg.brickRootPaths = _)
  refine ⟨?_, ?_, ?_⟩
  · rw [ht]
    exact List.mem_map_of_mem (brickEventFor gid ns claim cfg.volumeName) hroot
  · exact rm_mem_deleteBricks ns claim hroot
  · simp [brickPath, goFilepathJoin, joinSlash, brickName, List.dropWhile, hne,
      String.append_assoc]

theorem create_failure_full_teardown_witness :
    (∀ root ∈ cfgW.brickRootPaths,
      Event.exec root.host ["rm -rf " ++ brickPath root "ns1" "pvc-a" cfgW.volumeName] ∈ tFailW)
    ∧ firstCreateFailure envFailBricks stEmpty "ns1" "pvc-a" cfgW 5 =
        some (PErr.exec "h2" mkdirCmdsW) :=
  create_failure_full_teardown envFailBricks stEmpty "ns1" "pvc-a" cfgW 5 stEmpty tFailW
    (PErr.exec "h2" mkdirCmdsW) (by decide)

theorem create_success_trace_witness :
    ∃ r0 rs, cfgW.brickRootPaths = r0 :: rs ∧
      tOkW = (r0 :: rs).map (fun root => Event.exec root.host
            ["mkdir -p " ++ brickPath root "ns1" "pvc-a" cfgW.volumeName,
             "chown :" ++ toString (5 : Int) ++ " " ++ brickPath root "ns1" "pvc-a" cfgW.volumeName,
             "chmod 0771 " ++ brickPath root "ns1" "pvc-a" cfgW.volumeName])
        ++ [Event.exec r0.host
              ["gluster --mode=script volume create " ++ cfgW.volumeName ++ " " ++ cfgW.volumeType
                 ++ String.join (((r0 :: rs).map (brickFor "ns1" "pvc-a" cfgW.volumeName)).map
                      (fun b => " " ++ b.host ++ ":" ++ b.path))
                 ++ (if cfgW.forceCreate then " force" else ""),
               "gluster --mode=script volume start " ++ cfgW.volumeName],
            Event.createEp "ns1" (dynamicEpSvcPref ++ "pvc-a"),
            Event.createSvc "ns1" (dynamicEpSvcPref ++ "pvc-a")] :=
  create_success_trace envW stEmpty "ns1" "pvc-a" cfgW 5 stAfterW tOkW
    ⟨"glusterfs-simple-pvc-a", "vol1", false⟩ (by decide)

theorem config_failure_only_alloc_witness :
    Provision envBadCfg stEmpty optsW = some (stEmpty, [Event.allocate],
      Except.error (PErr.config ("Parameter is invalid: " ++ "bad storage class parameters")),
      ProvisioningState.finished) :=
  config_failure_only_alloc envBadCfg stEmpty optsW 5 "bad storage class parameters" rfl rfl rfl

theorem config_failure_touches_allocator_cex :
    Provision envBadCfg stEmpty optsW = some (stEmpty, [Event.allocate],
      Except.error (PErr.config "Parameter is invalid: bad storage class parameters"),
      ProvisioningState.finished)
    ∧ Event.allocate ∈ [Event.allocate] := ⟨by decide, by decide⟩

theorem brick_path_derivation_witness :
    Event.exec "h1" (mkBrickCmds 5 (brickPath ⟨"h1", "/data"⟩ "ns1" "pvc-a" cfgW.volumeName)) ∈ tBW ∧
    Event.exec "h1" (rmBrickCmds (brickPath ⟨"h1", "/data"⟩ "ns1" "pvc-a" cfgW.volumeName)) ∈
      deleteBricks "ns1" "pvc-a" cfgW ∧
    brickPath ⟨"h1", "/data"⟩ "ns1" "pvc-a" cfgW.volumeName =
      goClean ("/data" ++ "/" ++ "ns1" ++ "/" ++ "pvc-a" ++ "-" ++ cfgW.volumeName) :=
  brick_path_derivation envW cfgW "ns1" "pvc-a" 5 ⟨"h1", "/data"⟩ tBW bsW
    (by decide) (by decide) (by decide)

theorem brick_path_not_plain_concat_cex :
    brickPath ⟨"h1", "/data/"⟩ "ns1" "pvc-a" "vol1" = "/data/ns1/pvc-a-vol1" ∧
    "/data/" ++ "/" ++ "ns1" ++ "/" ++ "pvc-a" ++ "-" ++ "vol1" = "/data//ns1/pvc-a-vol1" ∧
    brickPath ⟨"h1", "/data/"⟩ "ns1" "pvc-a" "vol1" ≠
      "/data/" ++ "/" ++ "ns1" ++ "/" ++ "pvc-a" ++ "-" ++ "vol1" :=
  ⟨by decide, by decide, by decide⟩

theorem publish_idempotent_witness :
    (createEndpointService envW stEmpty "ns1" "glusterfs-simple-pvc-a" ["h1", "h2"] "pvc-a" =
      ({ endpoints := if ("ns1", "glusterfs-simple-pvc-a") ∈ stEmpty.endpoints then stEmpty.endpoints
                      else ("ns1", "glusterfs-simple-pvc-a") :: stEmpty.endpoints,
         services := if ("ns1", "glusterfs-simple-pvc-a") ∈ stEmpty.services then stEmpty.services
                     else ("ns1", "glusterfs-simple-pvc-a") :: stEmpty.services },
       [Event.createEp "ns1" "glusterfs-simple-pvc-a", Event.createSvc "ns1" "glusterfs-simple-pvc-a"],
       Except.ok (mkEndpoints "ns1" "glusterfs-simple-pvc-a" "pvc-a" ["h1", "h2"],
                  mkService "ns1" "glusterfs-simple-pvc-a" "pvc-a")))
    ∧ createEndpointService envW
        (createEndpointService envW stEmpty "ns1" "glusterfs-simple-pvc-a" ["h1", "h2"] "pvc-a").1
        "ns1" "glusterfs-simple-pvc-a" ["h1", "h2"] "pvc-a" =
        ((createEndpointService envW stEmpty "ns1" "glusterfs-simple-pvc-a" ["h1", "h2"] "pvc-a").1,
         [Event.createEp "ns1" "glusterfs-simple-pvc-a", Event.createSvc "ns1" "glusterfs-simple-pvc-a"],
         Except.ok (mkEndpoints "ns1" "glusterfs-simple-pvc-a" "pvc-a" ["h1", "h2"],
                    mkService "ns1" "glusterfs-simple-pvc-a" "pvc-a")) :=
  (publish_idempotent envW stEmpty "ns1" "glusterfs-simple-pvc-a" "pvc-a" ["h1", "h2"]).1 rfl rfl

theorem delete_teardown_order_witness :
    ∃ tVol, deleteGlusterVolume envW cfgW = some tVol ∧
      Delete envW stEmpty volW = some
        ((deleteEndpointService stEmpty "ns1" (dynamicEpSvcPref ++ "pvc-a")).1,
          tVol ++ deleteBricks "ns1" "pvc-a" cfgW
            ++ [Event.deleteSvc "ns1" (dynamicEpSvcPref ++ "pvc-a")]
            ++ [Event.release],
          none) ∧
      (∀ root ∈ cfgW.brickRootPaths,
        Event.exec root.host ["rm -rf " ++ brickPath root "ns1" "pvc-a" cfgW.volumeName] ∈
          tVol ++ deleteBricks "ns1" "pvc-a" cfgW
            ++ [Event.deleteSvc "ns1" (dynamicEpSvcPref ++ "pvc-a")]
            ++ [Event.release]) :=
  delete_teardown_order envW stEmpty volW cfgW ⟨"ns1", "pvc-a"⟩ ⟨"h1", "/data"⟩ [⟨"h2", "/data"⟩]
    rfl rfl rfl (by decide) rfl

theorem delete_resolved_cfg_no_teardown_cex :
    envW.cfgResult = Except.ok cfgW ∧
    Delete envW stEmpty volNoClaim = some (stEmpty, [], some PErr.claimRefNil) :=
  ⟨rfl, by decide⟩

theorem teardown_deletes_only_service_witness :
    stAfterDelW.endpoints = stBoth.endpoints ∧
    Event.deleteSvc "ns1" (dynamicEpSvcPref ++ "pvc-a") ∈ tDelW ∧
    (∀ k, k ∈ stAfterDelW.services ↔
      k ∈ stBoth.services ∧ k ≠ ("ns1", dynamicEpSvcPref ++ "pvc-a")) :=
  teardown_deletes_only_service envW stBoth "ns1" "pvc-a" cfgW stAfterDelW tDelW (by decide)

theorem teardown_leaves_address_object_cex :
    (Delete envW stBoth volW).map (fun r => r.1.endpoints) =
      some [("ns1", "glusterfs-simple-pvc-a")] ∧
    (Delete envW stBoth volW).map (fun r => r.1.services) = some [] :=
  ⟨by decide, by decide⟩

theorem selector_rejected_witness :
    Provision envW stEmpty optsSel =
      some (stEmpty, [], Except.error PErr.selector, ProvisioningState.finished) :=
  selector_rejected envW stEmpty optsSel rfl

theorem nonempty_roots_no_oob_witness :
    (createVolume envW stEmpty "ns1" "pvc-a" cfgW 5).isSome ∧
    (deleteVolume envW stEmpty "ns1" "pvc-a" cfgW).isSome ∧
    (deleteGlusterVolume envW cfgW).isSome ∧
    (∀ t bs, createBricks envW "ns1" "pvc-a" cfgW 5 = (t, Except.ok bs) →
      (createGlusterVolume envW bs cfgW).isSome) :=
  nonempty_roots_no_oob envW stEmpty "ns1" "pvc-a" cfgW 5 (by decide)

theorem delete_missing_claimref_witness :
    ∃ e, Delete envW stEmpty volNoClaim = some (stEmpty, [], some e) :=
  delete_missing_claimref envW stEmpty volNoClaim (Or.inl rfl)

end GlusterProv

